import Mathlib

/-!
Verification of `subreddit_idea_filter.py`.

The pipeline is embedded shallowly:

* Pure string manipulation (`str.strip`, `str.split('\n', 1)`, `str.upper`,
  decimal formatting of integers) is translated to executable Lean functions
  over `String` / `List Char`.  Python's `str.strip` removes the ASCII
  whitespace characters; we model that character set.  `str.upper` is modelled
  by ASCII per-character uppercasing, which agrees with Python on the ASCII
  strings the program manipulates.
* Times (`time.time()`, `created_utc`) are modelled as integer epoch seconds.
* Every network interaction is modelled by an explicit outcome value passed to
  the function: the language-model call becomes an oracle
  `Post → Except String String` (an `.error` is a raised exception, an `.ok`
  is the returned message content), the Reddit fetch becomes a `FetchWorld`
  describing what each of the two paths would deliver, and the SMTP session
  becomes an `Except String Unit`.  A Python function that can terminate with
  an uncaught exception is embedded with result type `Except String α`, where
  `.error` is the propagated exception.
-/

/-- Python truthiness of an optional string (as produced by `os.getenv`):
`None` and the empty string are falsy. -/
def truthyOpt : Option String → Bool
  | none => false
  | some s => !(s == "")

/-- The ASCII whitespace characters removed by Python's `str.strip()`. -/
def isPySpace (c : Char) : Bool :=
  c == ' ' || c == '\t' || c == '\n' || c == '\r' || c == '\x0b' || c == '\x0c'

/-- Python `s.strip()`: remove leading and trailing whitespace. -/
def pyStrip (s : String) : String :=
  String.mk (((s.data.dropWhile isPySpace).reverse.dropWhile isPySpace).reverse)

/-- Helper for `s.split('\n', 1)`: returns the part before the first newline
and, if a newline exists, the remainder after it. -/
def splitOnceNlAux : List Char → List Char × Option (List Char)
  | [] => ([], none)
  | c :: cs =>
    if c = '\n' then ([], some cs)
    else
      let r := splitOnceNlAux cs
      (c :: r.1, r.2)

/-- Python `s.split('\n', 1)`: the first segment, and the optional second
segment (present exactly when the string contains a line break). -/
def splitOnceNl (s : String) : String × Option String :=
  let r := splitOnceNlAux s.data
  (String.mk r.1, r.2.map String.mk)

/-- Python `s.upper()` on ASCII text. -/
def pyUpper (s : String) : String :=
  String.mk (s.data.map Char.toUpper)

/-- The `Post` dataclass (lines 65-75 of the source).  `created_utc` is in
epoch seconds, modelled as an integer. -/
structure Post where
  title : String
  author : String
  score : Int
  url : String
  created_utc : Int
  num_comments : Int
  selftext : Option String
  subreddit : String
  permalink : String
deriving DecidableEq

/-- Response parsing of `filter_posts_with_gemini` (source lines 242-253):
`response = content.strip()`, `lines = response.split('\n', 1)`,
`decision = lines[0].strip().upper()`, and the post is accepted with reason
`lines[1].strip()` iff `decision == "YES"` and a second segment exists.
Returns `some reason` on acceptance, `none` on rejection. -/
def parse_response (raw : String) : Option String :=
  let response := pyStrip raw
  let split := splitOnceNl response
  let decision := pyUpper (pyStrip split.1)
  match split.2 with
  | some second => if decision = "YES" then some (pyStrip second) else none
  | none => none

/-- Modelled from the claim's words, for refinement comparison with
`parse_response`: "the raw response is split on the first line break, the
first segment case-normalized is the decision, and the post is accepted with
the trimmed second segment as reason exactly when the decision is YES and a
second segment exists".  Note: the raw response itself is split, and the
first segment is only case-normalized, not trimmed. -/
def parse_response_claim (raw : String) : Option String :=
  let split := splitOnceNl raw
  match split.2 with
  | some second => if pyUpper split.1 = "YES" then some (pyStrip second) else none
  | none => none

/-- The claim's parsing description amended as the code forces: the response
is trimmed of surrounding whitespace before being split on the first line
break, and the decision segment is trimmed before case-normalization. -/
def parse_response_claim_trimmed (raw : String) : Option String :=
  let split := splitOnceNl (pyStrip raw)
  match split.2 with
  | some second =>
    if pyUpper (pyStrip split.1) = "YES" then some (pyStrip second) else none
  | none => none

/-- One iteration of the classification loop (source lines 205-256) for post
`p`: the model call and all response handling sit in a `try` block, so any
exception (modelled by `oracle p = .error _`) is caught and the post is
simply not appended.  Returns the `(post, reason)` pair iff the post is
accepted. -/
def classify_one (oracle : Post → Except String String) (p : Post) :
    Option (Post × String) :=
  match oracle p with
  | Except.error _ => none
  | Except.ok raw =>
    match parse_response raw with
    | some reason => some (p, reason)
    | none => none

/-- The classification loop: returns the accepted `(post, reason)` pairs in
input order, together with the log of model calls made (one call per loop
iteration, in order).  The call log makes "no retry / no abort" provable. -/
def classify_run (oracle : Post → Except String String) :
    List Post → List (Post × String) × List Post
  | [] => ([], [])
  | p :: rest =>
    let r := classify_run oracle rest
    match classify_one oracle p with
    | some pr => (pr :: r.1, p :: r.2)
    | none => (r.1, p :: r.2)

/-- `filter_posts_with_gemini` (source lines 186-258): with a missing or
empty `OPENROUTER_KEY` the function returns the empty list before any model
call; otherwise it classifies each post in order. -/
def filter_posts_with_gemini (openrouter_key : Option String)
    (oracle : Post → Except String String) (posts : List Post) :
    List (Post × String) :=
  if truthyOpt openrouter_key then (classify_run oracle posts).1 else []

/-- Concrete posts used as witness inputs. -/
def postA : Post :=
  { title := "A", author := "u1", score := 3, url := "http://a", created_utc := 0,
    num_comments := 1, selftext := some "body", subreddit := "EdTech",
    permalink := "/r/EdTech/a" }

/-- Second concrete witness post. -/
def postB : Post :=
  { title := "B", author := "u2", score := 0, url := "http://b", created_utc := 10,
    num_comments := 0, selftext := none, subreddit := "PropTech",
    permalink := "/r/PropTech/b" }

/-- Third concrete witness post. -/
def postC : Post :=
  { title := "C", author := "u3", score := 5, url := "http://c", created_utc := 20,
    num_comments := 2, selftext := some "", subreddit := "HealthTech",
    permalink := "/r/HealthTech/c" }

/-- Witness oracle: accepts post `"A"`, fails with an exception on `"B"`,
rejects post `"C"`. -/
def oracleW : Post → Except String String := fun p =>
  if p.title = "A" then Except.ok "YES\nmatches"
  else if p.title = "B" then Except.error "boom"
  else Except.ok "NO"

/-- A submission yielded by the authenticated Reddit API (the praw fields
read on source lines 116-126).  `author` models `str(submission.author)`. -/
structure Submission where
  title : String
  author : String
  score : Int
  url : String
  created_utc : Int
  num_comments : Int
  selftext : String
  subreddit_display_name : String
  permalink : String
deriving DecidableEq

/-- Field-by-field mapping of an authenticated submission into a `Post`
(source lines 116-126). -/
def subToPost (s : Submission) : Post :=
  { title := s.title, author := s.author, score := s.score, url := s.url,
    created_utc := s.created_utc, num_comments := s.num_comments,
    selftext := some s.selftext, subreddit := s.subreddit_display_name,
    permalink := s.permalink }

/-- One child of the anonymous JSON listing with all the directly-indexed
keys present (a listing whose items lack one of those keys is modelled by
`AnonOutcome.badShape`).  `selftext` is read with
`post_data.get("selftext", "")`, so it alone may be absent. -/
structure AnonItem where
  title : String
  author : String
  score : Int
  url : String
  created_utc : Int
  num_comments : Int
  selftext : Option String
  subreddit : String
  permalink : String
deriving DecidableEq

/-- Field-by-field mapping of an anonymous listing item into a `Post`
(source lines 165-175). -/
def itemToPost (i : AnonItem) : Post :=
  { title := i.title, author := i.author, score := i.score, url := i.url,
    created_utc := i.created_utc, num_comments := i.num_comments,
    selftext := some (i.selftext.getD ""), subreddit := i.subreddit,
    permalink := i.permalink }

/-- Outcome of the anonymous fetch attempt (source lines 139-181):
`reqError` is any `requests.exceptions.RequestException` (connection error,
timeout, non-2xx via `raise_for_status`, or an undecodable body via
`response.json()`), which the `except` clause catches; `badShape` is a body
that decodes as JSON but lacks the expected `data`/`children`/field
structure, raising a `KeyError`/`TypeError` that the `except` clause does
not catch; `ok` is a well-shaped listing. -/
inductive AnonOutcome where
  | reqError : AnonOutcome
  | badShape : AnonOutcome
  | ok : List AnonItem → AnonOutcome
deriving DecidableEq

/-- The environment and network behaviour visible to `fetch_new_posts`:
the two credential variables, the submissions the authenticated API yields
before `authRaises` tells whether it then raises, and the anonymous
outcome. -/
structure FetchWorld where
  client_id : Option String
  client_secret : Option String
  authSubs : List Submission
  authRaises : Bool
  anon : AnonOutcome

/-- The anonymous fallback block (source lines 139-183), entered with the
posts accumulated so far: a caught request-level error returns the
accumulated posts unchanged, a bad-shape body propagates the exception, and
a well-shaped listing appends its items. -/
def anonFetchStep (w : FetchWorld) (posts : List Post) :
    Except String (List Post) :=
  match w.anon with
  | AnonOutcome.reqError => Except.ok posts
  | AnonOutcome.badShape => Except.error "KeyError: unexpected JSON shape"
  | AnonOutcome.ok items => Except.ok (posts ++ items.map itemToPost)

/-- `fetch_new_posts` (source lines 96-183).  With truthy credentials the
authenticated path maps its submissions into `posts`; if it raises, the
accumulated posts fall through to the anonymous path (they are not
discarded); on success it returns early.  Without truthy credentials the
anonymous path starts from the empty list. -/
def fetch_new_posts (w : FetchWorld) : Except String (List Post) :=
  if truthyOpt w.client_id && truthyOpt w.client_secret then
    if w.authRaises then anonFetchStep w (w.authSubs.map subToPost)
    else Except.ok (w.authSubs.map subToPost)
  else anonFetchStep w []

/-- Witness world for C4's counterexample: no credentials, and the anonymous
body decodes but has an unexpected shape. -/
def fetchWorldBad : FetchWorld :=
  { client_id := none, client_secret := none, authSubs := [],
    authRaises := false, anon := AnonOutcome.badShape }

/-- Witness world for C4's amended claim: no credentials and a request-level
anonymous failure. -/
def fetchWorldEmpty : FetchWorld :=
  { client_id := none, client_secret := none, authSubs := [],
    authRaises := false, anon := AnonOutcome.reqError }

/-- A submission that maps to `postA`. -/
def subA : Submission :=
  { title := "A", author := "u1", score := 3, url := "http://a",
    created_utc := 0, num_comments := 1, selftext := "body",
    subreddit_display_name := "EdTech", permalink := "/r/EdTech/a" }

/-- An anonymous listing item that also maps to `postA`. -/
def itemA : AnonItem :=
  { title := "A", author := "u1", score := 3, url := "http://a",
    created_utc := 0, num_comments := 1, selftext := some "body",
    subreddit := "EdTech", permalink := "/r/EdTech/a" }

/-- Witness world for C9: credentials present, the authenticated path yields
one submission and then raises, and the anonymous path returns the same
submission again. -/
def fetchWorldDup : FetchWorld :=
  { client_id := some "id", client_secret := some "secret", authSubs := [subA],
    authRaises := true, anon := AnonOutcome.ok [itemA] }

/-- Witness world for C9's both-paths-fail clause: credentials present, the
authenticated path yields one submission and then raises, the anonymous path
fails with a request-level error. -/
def fetchWorldPartial : FetchWorld :=
  { client_id := some "id", client_secret := some "secret", authSubs := [subA],
    authRaises := true, anon := AnonOutcome.reqError }

/-- Helper for Python `int(str)`: the value of a nonempty all-digit string
(line 357 of the source applies `int` to the port). -/
def digitsValAux : List Char → Nat → Option Nat
  | [], acc => some acc
  | c :: cs, acc =>
    if c.isDigit then digitsValAux cs (10 * acc + (c.toNat - 48)) else none

/-- Value of a nonempty digit string, `none` otherwise. -/
def digitsVal : List Char → Option Nat
  | [] => none
  | c :: cs => digitsValAux (c :: cs) 0

/-- Python `int(s)` on a string: optional surrounding whitespace, an optional
sign, then at least one decimal digit; anything else raises `ValueError`,
modelled as `none`. -/
def pyInt (s : String) : Option Int :=
  match (pyStrip s).data with
  | '-' :: ds => (digitsVal ds).map (fun n => -(n : Int))
  | '+' :: ds => (digitsVal ds).map (fun n => (n : Int))
  | ds => (digitsVal ds).map (fun n => (n : Int))

/-- The five mail-related environment variables read by `send_email`
(source lines 356-360). -/
structure MailEnv where
  SMTP_SERVER : Option String
  SMTP_PORT : Option String
  SMTP_USERNAME : Option String
  SMTP_PASSWORD : Option String
  SENDER_EMAIL : Option String

/-- `sender_email = os.getenv("SENDER_EMAIL", smtp_username)` (source line
360): the explicit sender if set, otherwise the username (possibly unset). -/
def resolveSender (env : MailEnv) : Option String :=
  match env.SENDER_EMAIL with
  | some s => some s
  | none => env.SMTP_USERNAME

/-- `send_email` (source lines 354-384).  `session` is the outcome of the
SMTP connect/starttls/login/send/quit sequence, which sits inside the `try`
block.  The result is `.error` for an uncaught exception (the `int` call on
the port is outside the `try` block) and otherwise
`.ok (result, attemptedConnection)` where `result` is the returned boolean
and `attemptedConnection` records whether the SMTP session was opened. -/
def send_email (env : MailEnv) (session : Except String Unit)
    (recipient subject html_content : String) : Except String (Bool × Bool) :=
  let _smtp_server := env.SMTP_SERVER.getD "smtp.gmail.com"
  match pyInt (env.SMTP_PORT.getD "587") with
  | none => Except.error "ValueError: invalid literal for int()"
  | some _smtp_port =>
    if truthyOpt env.SMTP_USERNAME && truthyOpt env.SMTP_PASSWORD &&
        truthyOpt (resolveSender env) && !(recipient == "") then
      match session with
      | Except.ok _ => Except.ok (true, true)
      | Except.error _ => Except.ok (false, true)
    else Except.ok (false, false)

/-- Witness environment for C5's counterexample: host and port unset,
username/password set, sender defaulting to the username. -/
def mailEnvNoHostPort : MailEnv :=
  { SMTP_SERVER := none, SMTP_PORT := none, SMTP_USERNAME := some "user",
    SMTP_PASSWORD := some "pw", SENDER_EMAIL := none }

/-- Witness environment for C5's amended claim: username unset. -/
def mailEnvNoUser : MailEnv :=
  { SMTP_SERVER := none, SMTP_PORT := none, SMTP_USERNAME := none,
    SMTP_PASSWORD := some "pw", SENDER_EMAIL := none }

/-- Witness environment for C6's counterexample: a port value that is not a
number. -/
def mailEnvBadPort : MailEnv :=
  { SMTP_SERVER := none, SMTP_PORT := some "abc", SMTP_USERNAME := some "user",
    SMTP_PASSWORD := some "pw", SENDER_EMAIL := none }

/-- Witness environment for C6: complete configuration. -/
def mailEnvFull : MailEnv :=
  { SMTP_SERVER := some "smtp.example.com", SMTP_PORT := some "2525",
    SMTP_USERNAME := some "user", SMTP_PASSWORD := some "pw",
    SENDER_EMAIL := some "sender@example.com" }

/-- Decimal digit character (the digits produced by Python `str(int)`).
Only applied to values below ten. -/
def digitChar : Nat → Char
  | 0 => '0'
  | 1 => '1'
  | 2 => '2'
  | 3 => '3'
  | 4 => '4'
  | 5 => '5'
  | 6 => '6'
  | 7 => '7'
  | 8 => '8'
  | _ => '9'

/-- Fuel-driven decimal digit expansion: structurally recursive so that the
kernel can evaluate it.  With `fuel >= n` the fuel never runs out, because
`n / 10` reaches zero within `n` steps. -/
def natDigitsAux : Nat → Nat → List Char
  | 0, n => [digitChar n]
  | fuel + 1, n =>
    if n < 10 then [digitChar n]
    else natDigitsAux fuel (n / 10) ++ [digitChar (n % 10)]

/-- Decimal digit list of a natural number, as Python `str` renders it. -/
def natDigits (n : Nat) : List Char :=
  natDigitsAux n n

/-- Python `str` of a natural number. -/
def natRepr (n : Nat) : String :=
  String.mk (natDigits n)

/-- Python `str` of an integer. -/
def intRepr (i : Int) : String :=
  if i < 0 then "-" ++ natRepr i.natAbs else natRepr i.toNat

/-- `Post.get_age_str` (source lines 77-89) with the current time passed
explicitly: the age in seconds is bucketed into s/m/h/d.  The divisions only
happen on positive ages, where Python's `int(x)` truncation is natural
division. -/
def get_age_str (now : Int) (p : Post) : String :=
  let age := now - p.created_utc
  if age < 60 then intRepr age ++ "s"
  else if age < 3600 then natRepr (age.toNat / 60) ++ "m"
  else if age < 86400 then natRepr (age.toNat / 3600) ++ "h"
  else natRepr (age.toNat / 86400) ++ "d"

/-- `Post.get_full_url` (source lines 91-93). -/
def get_full_url (p : Post) : String :=
  "https://www.reddit.com" ++ p.permalink

/-- Concatenate lines, terminating each with a newline (used to transcribe
the multi-line template literals of the source). -/
def linesConcat : List String → String
  | [] => ""
  | l :: ls => l ++ "\n" ++ linesConcat ls

/-- The fixed part of the report before the timestamp: the first template
literal of `build_html_report` (source lines 265-326) up to
`Generated on: `. -/
def htmlHead : String :=
  linesConcat [
    "",
    "    <!DOCTYPE html>",
    "    <html>",
    "    <head>",
    "        <meta charset=\"UTF-8\">",
    "        <meta name=\"viewport\" content=\"width=device-width, initial-scale=1.0\">",
    "        <title>Reddit Idea Filter Report</title>",
    "        <style>",
    "            body \x7b",
    "                font-family: Arial, sans-serif;",
    "                line-height: 1.6;",
    "                max-width: 800px;",
    "                margin: 0 auto;",
    "                padding: 20px;",
    "                color: #333;",
    "            \x7d",
    "            h1 \x7b",
    "                color: #ff4500;",
    "                border-bottom: 2px solid #ff4500;",
    "                padding-bottom: 10px;",
    "            \x7d",
    "            .post \x7b",
    "                margin-bottom: 30px;",
    "                padding: 15px;",
    "                border-radius: 5px;",
    "                background-color: #f9f9f9;",
    "                border-left: 4px solid #ff4500;",
    "            \x7d",
    "            .subreddit \x7b",
    "                color: #0079d3;",
    "                font-weight: bold;",
    "                margin-bottom: 5px;",
    "            \x7d",
    "            .title \x7b",
    "                font-size: 1.2em;",
    "                margin: 5px 0;",
    "            \x7d",
    "            .title a \x7b",
    "                color: #1a1a1b;",
    "                text-decoration: none;",
    "            \x7d",
    "            .title a:hover \x7b",
    "                text-decoration: underline;",
    "            \x7d",
    "            .age \x7b",
    "                color: #787c7e;",
    "                font-size: 0.9em;",
    "            \x7d",
    "            .reason \x7b",
    "                margin-top: 10px;",
    "                font-style: italic;",
    "                color: #4a4a4a;",
    "            \x7d",
    "            .summary \x7b",
    "                margin-top: 20px;",
    "                color: #666;",
    "            \x7d",
    "        </style>",
    "    </head>",
    "    <body>",
    "        <h1>Reddit Idea Filter Report</h1>"
  ] ++ "        <p>Generated on: "

/-- The fixed part between the timestamp and the result count. -/
def htmlMid2 : String :=
  "</p>\n        \n        <div class=\"summary\">\n            <p>Found "

/-- The fixed part between the result count and the first post block. -/
def htmlMid3 : String :=
  " posts matching your filter criteria.</p>\n        </div>\n    "

/-- The closing template literal (source lines 346-349). -/
def htmlFoot : String :=
  "\n    </body>\n    </html>\n    "

/-- Post block segment before the subreddit name. -/
def postBlockA : String :=
  "\n        <div class=\"post\">\n            <div class=\"subreddit\">r/"

/-- Post block segment between the subreddit name and the full URL. -/
def postBlockB : String :=
  "</div>\n            <div class=\"title\">\n                <a href=\""

/-- Post block segment between the full URL and the title. -/
def postBlockC : String :=
  "\" target=\"_blank\">\n                    "

/-- Post block segment between the title and the age string. -/
def postBlockD : String :=
  " <span class=\"age\">("

/-- Post block segment between the age string and the reason. -/
def postBlockE : String :=
  ")</span>\n                </a>\n            </div>\n            <div class=\"reason\">"

/-- Post block segment after the reason. -/
def postBlockF : String :=
  "</div>\n        </div>\n        "

/-- One post block of the report: the f-string appended per accepted post
(source lines 333-344), with the post's fields, full URL, age string and the
model's reason interpolated verbatim. -/
def postBlock (now : Int) (p : Post) (reason : String) : String :=
  postBlockA ++ p.subreddit ++ postBlockB ++ get_full_url p ++ postBlockC ++
    p.title ++ postBlockD ++ get_age_str now p ++ postBlockE ++ reason ++
    postBlockF

/-- The concatenation of all post blocks, in input order (the `for` loop of
source lines 333-344). -/
def blocksHtml (now : Int) : List (Post × String) → String
  | [] => ""
  | pr :: rest => postBlock now pr.1 pr.2 ++ blocksHtml now rest

/-- `build_html_report` (source lines 261-351), with the two clock reads
(`datetime.now().strftime(...)` and `time.time()` inside `get_age_str`)
passed explicitly as `timestamp` and `now`. -/
def build_html_report (timestamp : String) (now : Int)
    (filtered_posts : List (Post × String)) : String :=
  htmlHead ++ timestamp ++ htmlMid2 ++ natRepr filtered_posts.length ++
    htmlMid3 ++ blocksHtml now filtered_posts ++ htmlFoot

/-- Split a character list at the first occurrence of the marker `m`:
returns the part strictly before the marker and the part strictly after
it. -/
def splitAtMarker (m : List Char) : List Char → Option (List Char × List Char)
  | [] => none
  | c :: cs =>
    if m <+: c :: cs then some ([], (c :: cs).drop m.length)
    else
      match splitAtMarker m cs with
      | some ab => some (c :: ab.1, ab.2)
      | none => none

/-- Re-parser marker: from the end of the subreddit name to the start of the
permalink (the block text together with the fixed URL origin). -/
def mSub : List Char :=
  postBlockB.data ++ "https://www.reddit.com".data

/-- Re-parser marker: from the end of the permalink to the start of the
title. -/
def mPerma : List Char :=
  postBlockC.data

/-- Re-parser marker that terminates the title (the markup right after the
title's trailing space). -/
def mTitle : List Char :=
  "<span class=\"age\">(".data

/-- Re-parser marker that terminates the age string. -/
def mAge : List Char :=
  postBlockE.data

/-- Re-parser marker that terminates the reason and the block. -/
def mReason : List Char :=
  postBlockF.data

/-- Re-parser marker recognising the start of a post block. -/
def mBlockStart : List Char :=
  postBlockA.data

/-- Re-parse the per-post blocks of a document: repeatedly recognise a block
start and extract the (permalink, title) pair of each block.  The fuel
argument bounds the number of blocks; the top-level parser passes the
document length. -/
def parseBlocksAux : Nat → List Char → List (List Char × List Char)
  | 0, _ => []
  | fuel + 1, s =>
    if mBlockStart <+: s then
      match splitAtMarker mSub (s.drop mBlockStart.length) with
      | none => []
      | some p1 =>
        match splitAtMarker mPerma p1.2 with
        | none => []
        | some p2 =>
          match splitAtMarker mTitle p2.2 with
          | none => []
          | some p3 =>
            match splitAtMarker mAge p3.2 with
            | none => []
            | some p4 =>
              match splitAtMarker mReason p4.2 with
              | none => []
              | some p5 =>
                (p2.1, p3.1.dropLast) :: parseBlocksAux fuel p5.2
    else []

/-- Re-parse a rendered report: skip the head, the timestamp, the count and
the summary, then extract each post block's permalink and title. -/
def parseReport (doc : String) : List (String × String) :=
  match splitAtMarker htmlHead.data doc.data with
  | none => []
  | some p1 =>
    match splitAtMarker htmlMid2.data p1.2 with
    | none => []
    | some p2 =>
      match splitAtMarker htmlMid3.data p2.2 with
      | none => []
      | some p3 =>
        (parseBlocksAux doc.data.length p3.2).map
          (fun pr => (String.mk pr.1, String.mk pr.2))

/-- Well-formedness of one rendered result: the interpolated fields avoid
the report's own delimiter characters, so that re-parsing is unambiguous. -/
def goodFields (pr : Post × String) : Prop :=
  '<' ∉ pr.1.subreddit.data ∧ '"' ∉ pr.1.permalink.data ∧
    '<' ∉ pr.1.title.data ∧ '<' ∉ pr.2.data

instance goodFields.instDecidable (pr : Post × String) :
    Decidable (goodFields pr) := by
  unfold goodFields
  infer_instance

/-- Witness post for C8's counterexample: its title contains the age-span
markup, so the unescaped interpolation makes re-parsing recover a wrong
title. -/
def postInj : Post :=
  { title := "x<span class=\"age\">(y", author := "u", score := 0,
    url := "http://x", created_utc := 0, num_comments := 0, selftext := none,
    subreddit := "t", permalink := "/r/t/1" }

/-- Witness post for C10: title and reason carry HTML markup. -/
def postMarkup : Post :=
  { title := "<b>Idea</b>", author := "u", score := 0, url := "http://m",
    created_utc := 0, num_comments := 0, selftext := none, subreddit := "x",
    permalink := "/r/x/9" }

/- ------------------------------------------------------------------ -/
/- Lemmas about the classifier.                                        -/
/- ------------------------------------------------------------------ -/

theorem classify_one_fst {oracle : Post → Except String String} {p : Post}
    {pr : Post × String} (h : classify_one oracle p = some pr) : pr.1 = p := by
  unfold classify_one at h
  split at h
  · exact absurd h (by simp)
  · split at h
    · cases h; rfl
    · exact absurd h (by simp)

theorem classify_run_fst_sublist (oracle : Post → Except String String)
    (posts : List Post) :
    List.Sublist ((classify_run oracle posts).1.map Prod.fst) posts := by
  induction posts with
  | nil => simp [classify_run]
  | cons p rest ih =>
    simp only [classify_run]
    cases h : classify_one oracle p with
    | none => exact ih.cons p
    | some pr =>
      simpa [classify_one_fst h] using ih.cons₂ p

theorem classify_run_not_mem (oracle : Post → Except String String) (p : Post)
    (hp : classify_one oracle p = none) (posts : List Post) (r : String) :
    (p, r) ∉ (classify_run oracle posts).1 := by
  induction posts with
  | nil => simp [classify_run]
  | cons q rest ih =>
    simp only [classify_run]
    cases h : classify_one oracle q with
    | none => exact ih
    | some qr =>
      intro hmem
      rcases List.mem_cons.mp hmem with heq | hmem'
      · have hq : qr.1 = q := classify_one_fst h
        have : p = q := by rw [← heq] at hq; exact hq
        rw [this] at hp
        rw [hp] at h
        exact absurd h (by simp)
      · exact ih hmem'

theorem classify_run_calls (oracle : Post → Except String String)
    (posts : List Post) : (classify_run oracle posts).2 = posts := by
  induction posts with
  | nil => rfl
  | cons p rest ih =>
    simp only [classify_run]
    cases classify_one oracle p <;> simp [ih]

theorem classify_run_error_skip (oracle : Post → Except String String)
    (p : Post) (e : String) (he : oracle p = Except.error e)
    (pre rest : List Post) :
    (classify_run oracle (pre ++ p :: rest)).1 =
      (classify_run oracle (pre ++ rest)).1 := by
  have hnone : classify_one oracle p = none := by
    unfold classify_one; rw [he]
  induction pre with
  | nil => simp [classify_run, hnone]
  | cons q pre ih =>
    simp only [List.cons_append, classify_run]
    cases classify_one oracle q <;> simp [ih]

/- ------------------------------------------------------------------ -/
/- Claim C1                                                            -/
/- ------------------------------------------------------------------ -/

/-- C1 counterexample: the claim says the raw response is split on the first
line break and the first segment, case-normalized, is the decision.  On the
response `"\nYES\nok"` that reading rejects (the first raw segment is empty),
but the code strips the response first and accepts with reason `"ok"`. -/
theorem C1_counterexample :
    parse_response "\nYES\nok" = some "ok" ∧
      parse_response_claim "\nYES\nok" = none := by
  constructor <;> rfl

/-- C1 (amended): the response is first trimmed of surrounding whitespace,
then split on the first line break; the first segment, trimmed and
case-normalized, is the decision; the post is accepted with the trimmed
second segment exactly when the decision is YES and a second segment exists.
The spec's three examples hold as stated. -/
theorem C1_response_parsing :
    (∀ raw : String, parse_response raw = parse_response_claim_trimmed raw) ∧
      parse_response "YES\nSolves X problem" = some "Solves X problem" ∧
      parse_response "NO" = none ∧
      parse_response "YES" = none := by
  refine ⟨fun raw => rfl, rfl, rfl, rfl⟩

/- ------------------------------------------------------------------ -/
/- Claim C2                                                            -/
/- ------------------------------------------------------------------ -/

/-- C2: the first components of the classifier's output form a sublist of the
input list (so the output posts are a subset of the input posts and each
input post contributes at most one pair), and a post whose model response is
malformed (or whose call fails) is absent from the output. -/
theorem C2_classifier_subset :
    ∀ (key : Option String) (oracle : Post → Except String String)
      (posts : List Post),
      List.Sublist ((filter_posts_with_gemini key oracle posts).map Prod.fst)
        posts ∧
      ∀ p : Post, classify_one oracle p = none →
        ∀ r : String, (p, r) ∉ filter_posts_with_gemini key oracle posts := by
  intro key oracle posts
  unfold filter_posts_with_gemini
  by_cases hk : truthyOpt key = true
  · rw [if_pos hk]
    exact ⟨classify_run_fst_sublist oracle posts,
      fun p hp r => classify_run_not_mem oracle p hp posts r⟩
  · rw [if_neg hk]
    exact ⟨by simp, fun p hp r => by simp⟩

/-- C2 witness: on the concrete run with posts A, B, C the accepted firsts
form a sublist of the input, and post B (whose model call raises) is absent
from the output. -/
theorem C2_witness :
    List.Sublist
      ((filter_posts_with_gemini (some "k") oracleW [postA, postB, postC]).map
        Prod.fst) [postA, postB, postC] ∧
      ∀ r : String,
        (postB, r) ∉ filter_posts_with_gemini (some "k") oracleW
          [postA, postB, postC] :=
  ⟨(C2_classifier_subset (some "k") oracleW [postA, postB, postC]).1,
    (C2_classifier_subset (some "k") oracleW [postA, postB, postC]).2 postB
      (by decide)⟩

/- ------------------------------------------------------------------ -/
/- Claim C3                                                            -/
/- ------------------------------------------------------------------ -/

/-- C3: if the model call for one post raises, the output is the same as if
that post had simply been rejected (classification of all other posts still
happens and is unaffected), and the call log of the run is exactly the input
list: the failing post is called exactly once (no retry) and every remaining
post is still called (no abort). -/
theorem C3_error_isolated :
    ∀ (key : Option String) (oracle : Post → Except String String)
      (pre rest : List Post) (p : Post) (e : String),
      oracle p = Except.error e →
      filter_posts_with_gemini key oracle (pre ++ p :: rest) =
        filter_posts_with_gemini key oracle (pre ++ rest) ∧
      (classify_run oracle (pre ++ p :: rest)).2 = pre ++ p :: rest := by
  intro key oracle pre rest p e he
  refine ⟨?_, classify_run_calls oracle (pre ++ p :: rest)⟩
  unfold filter_posts_with_gemini
  by_cases hk : truthyOpt key = true
  · rw [if_pos hk, if_pos hk]
    exact classify_run_error_skip oracle p e he pre rest
  · rw [if_neg hk, if_neg hk]

/-- C3 witness: with the concrete oracle whose call on post B raises, the run
on [A, B, C] produces the same output as the run on [A, C], and the call log
is exactly [A, B, C]. -/
theorem C3_witness :
    filter_posts_with_gemini (some "k") oracleW ([postA] ++ postB :: [postC]) =
      filter_posts_with_gemini (some "k") oracleW ([postA] ++ [postC]) ∧
      (classify_run oracleW ([postA] ++ postB :: [postC])).2 =
        [postA] ++ postB :: [postC] :=
  C3_error_isolated (some "k") oracleW [postA] [postC] postB "boom" rfl

/- ------------------------------------------------------------------ -/
/- Claim C4                                                            -/
/- ------------------------------------------------------------------ -/

/-- C4 counterexample: with no credentials and an anonymous response body
that decodes as JSON but has an unexpected shape, both fetch paths fail and
`fetch_new_posts` terminates with an unhandled fault (the `except` clause on
line 180 only catches `requests.exceptions.RequestException`, not the
`KeyError` raised by `data["data"]`). -/
theorem C4_counterexample :
    fetch_new_posts fetchWorldBad =
      Except.error "KeyError: unexpected JSON shape" := rfl

/-- C4 (amended): if the anonymous path fails with a request-level error
(network error, timeout, non-2xx status, undecodable body) and the
authenticated path is unconfigured or fails having yielded no submissions,
then `fetch_new_posts` returns the empty list without a fault.  A decoded
body of unexpected shape instead propagates an unhandled `KeyError`, and an
authenticated path that fails after yielding submissions keeps them. -/
theorem C4_both_paths_fail_empty :
    ∀ w : FetchWorld, w.anon = AnonOutcome.reqError →
      (truthyOpt w.client_id = false ∨ truthyOpt w.client_secret = false ∨
        (w.authRaises = true ∧ w.authSubs = [])) →
      fetch_new_posts w = Except.ok [] := by
  intro w ha hdisj
  unfold fetch_new_posts anonFetchStep
  rcases hdisj with h | h | ⟨hr, hs⟩
  · rw [h]; simp [ha]
  · rw [h]; simp [ha]
  · rw [hr, hs, ha]
    by_cases hc : (truthyOpt w.client_id && truthyOpt w.client_secret) = true <;>
      simp [hc]

/-- C4 witness: in the concrete world with no credentials and a
request-level anonymous failure, the fetch returns the empty list. -/
theorem C4_witness : fetch_new_posts fetchWorldEmpty = Except.ok [] :=
  C4_both_paths_fail_empty fetchWorldEmpty rfl (Or.inl rfl)

/- ------------------------------------------------------------------ -/
/- Claim C9                                                            -/
/- ------------------------------------------------------------------ -/

/-- C9: posts accumulated by the authenticated path before its failure are
never discarded: the anonymous fallback appends to them, so after an
authenticated failure the result is the authenticated posts followed by the
anonymous ones; if the anonymous path then fails at request level the
already-fetched posts are still returned (hence the result can be non-empty
although both paths failed), and the same submission can appear twice, once
from each path. -/
theorem C9_partial_posts_kept :
    (∀ (w : FetchWorld) (items : List AnonItem),
        truthyOpt w.client_id = true → truthyOpt w.client_secret = true →
        w.authRaises = true →
        (w.anon = AnonOutcome.ok items →
          fetch_new_posts w =
            Except.ok (w.authSubs.map subToPost ++ items.map itemToPost)) ∧
        (w.anon = AnonOutcome.reqError →
          fetch_new_posts w = Except.ok (w.authSubs.map subToPost))) ∧
      (∃ (w : FetchWorld) (l : List Post),
          truthyOpt w.client_id = true ∧ w.authRaises = true ∧
          w.anon = AnonOutcome.reqError ∧ fetch_new_posts w = Except.ok l ∧
          l ≠ []) ∧
      (∃ (w : FetchWorld) (p : Post), fetch_new_posts w = Except.ok [p, p]) := by
  refine ⟨?_, ⟨fetchWorldPartial, [subToPost subA], rfl, rfl, rfl, rfl, by decide⟩,
    ⟨fetchWorldDup, subToPost subA, rfl⟩⟩
  intro w items h1 h2 hr
  constructor
  · intro ha
    unfold fetch_new_posts anonFetchStep
    rw [h1, h2, hr, ha]
    simp
  · intro ha
    unfold fetch_new_posts anonFetchStep
    rw [h1, h2, hr, ha]
    simp

/-- C9 witness: in the concrete world where the authenticated path yields
one submission and raises and the anonymous path returns the same
submission, the result contains the post twice. -/
theorem C9_witness :
    fetch_new_posts fetchWorldDup =
      Except.ok (fetchWorldDup.authSubs.map subToPost ++
        [itemA].map itemToPost) :=
  (C9_partial_posts_kept.1 fetchWorldDup [itemA] rfl rfl rfl).1 rfl

/- ------------------------------------------------------------------ -/
/- Claim C5                                                            -/
/- ------------------------------------------------------------------ -/

/-- C5 counterexample: with the mail host and port both unset (but
username/password set and a recipient given), `send_email` does not return
failure: it takes the defaults `smtp.gmail.com`/`587`, attempts the
connection, and here succeeds. -/
theorem C5_counterexample :
    send_email mailEnvNoHostPort (Except.ok ()) "r@example.com" "subject"
      "<html/>" = Except.ok (true, true) := rfl

/-- C5 (amended): host and port unset merely take defaults; it is when any
of mail username, mail password, the resolved sender (explicit sender, else
the username) or the recipient is unset or empty - and the port setting
parses as an integer - that `send_email` returns failure immediately without
attempting a network connection. -/
theorem C5_missing_credentials_no_connection :
    ∀ (env : MailEnv) (session : Except String Unit)
      (recipient subject html_content : String) (k : Int),
      pyInt (env.SMTP_PORT.getD "587") = some k →
      (truthyOpt env.SMTP_USERNAME = false ∨
        truthyOpt env.SMTP_PASSWORD = false ∨
        truthyOpt (resolveSender env) = false ∨ recipient = "") →
      send_email env session recipient subject html_content =
        Except.ok (false, false) := by
  intro env session recipient subject html_content k hk hmiss
  unfold send_email
  rw [hk]
  have hcond : (truthyOpt env.SMTP_USERNAME && truthyOpt env.SMTP_PASSWORD &&
      truthyOpt (resolveSender env) && !(recipient == "")) = false := by
    rcases hmiss with h | h | h | h <;> simp [h]
  rw [hcond]
  rfl

/-- C5 witness: with the username unset, `send_email` reports failure with
no connection attempted. -/
theorem C5_witness :
    send_email mailEnvNoUser (Except.ok ()) "r@example.com" "subject"
      "<html/>" = Except.ok (false, false) :=
  C5_missing_credentials_no_connection mailEnvNoUser (Except.ok ())
    "r@example.com" "subject" "<html/>" 587 rfl (Or.inl rfl)

/- ------------------------------------------------------------------ -/
/- Claim C6                                                            -/
/- ------------------------------------------------------------------ -/

/-- C6 counterexample: with `SMTP_PORT` set to a non-numeric string the call
`int(os.getenv("SMTP_PORT", "587"))` on line 357 sits outside the `try`
block, so `send_email` terminates with an unhandled `ValueError` instead of
returning a boolean. -/
theorem C6_counterexample :
    send_email mailEnvBadPort (Except.ok ()) "r@example.com" "subject"
      "<html/>" = Except.error "ValueError: invalid literal for int()" := rfl

/-- C6 (amended): whenever the configured port string parses as an integer
(in particular whenever it is unset), `send_email` returns a boolean for
every environment configuration and every session outcome - any failure of
the connect/auth/submit sequence is caught - and never terminates with an
unhandled fault; a non-numeric port instead raises an unhandled
`ValueError`. -/
theorem C6_returns_boolean :
    ∀ (env : MailEnv) (session : Except String Unit)
      (recipient subject html_content : String) (k : Int),
      pyInt (env.SMTP_PORT.getD "587") = some k →
      ∃ b attempted : Bool,
        send_email env session recipient subject html_content =
          Except.ok (b, attempted) := by
  intro env session recipient subject html_content k hk
  unfold send_email
  rw [hk]
  by_cases hcond : (truthyOpt env.SMTP_USERNAME && truthyOpt env.SMTP_PASSWORD &&
      truthyOpt (resolveSender env) && !(recipient == "")) = true
  · rw [if_pos hcond]
    cases session with
    | ok u => exact ⟨true, true, rfl⟩
    | error e => exact ⟨false, true, rfl⟩
  · rw [if_neg hcond]
    exact ⟨false, false, rfl⟩

/-- C6 witness: with a complete configuration and a failing SMTP session,
`send_email` still returns a boolean. -/
theorem C6_witness :
    ∃ b attempted : Bool,
      send_email mailEnvFull (Except.error "connection refused")
        "r@example.com" "subject" "<html/>" = Except.ok (b, attempted) :=
  C6_returns_boolean mailEnvFull (Except.error "connection refused")
    "r@example.com" "subject" "<html/>" 2525 rfl

/- ------------------------------------------------------------------ -/
/- Lemmas about the renderer and the re-parser.                        -/
/- ------------------------------------------------------------------ -/

theorem digitChar_mem (d : Nat) : digitChar d ∈ "0123456789".data := by
  unfold digitChar
  split <;> decide

theorem natDigitsAux_mem :
    ∀ (fuel n : Nat) (c : Char), c ∈ natDigitsAux fuel n → c ∈ "0123456789".data := by
  intro fuel
  induction fuel with
  | zero =>
    intro n c hc
    simp [natDigitsAux] at hc
    rw [hc]
    exact digitChar_mem n
  | succ f ih =>
    intro n c hc
    unfold natDigitsAux at hc
    by_cases h : n < 10
    · rw [if_pos h] at hc
      simp at hc
      rw [hc]
      exact digitChar_mem n
    · rw [if_neg h] at hc
      rcases List.mem_append.mp hc with h1 | h1
      · exact ih _ c h1
      · simp at h1
        rw [h1]
        exact digitChar_mem _

theorem natDigits_mem :
    ∀ (n : Nat) (c : Char), c ∈ natDigits n → c ∈ "0123456789".data :=
  fun n c hc => natDigitsAux_mem n n c hc

theorem natDigits_avoid {c : Char} (hc : c ∉ "0123456789".data) (n : Nat) :
    c ∉ natDigits n :=
  fun h => hc (natDigits_mem n c h)

theorem age_str_avoid {c : Char} (hdig : c ∉ "0123456789".data)
    (h1 : c ≠ '-') (h2 : c ≠ 's') (h3 : c ≠ 'm') (h4 : c ≠ 'h') (h5 : c ≠ 'd')
    (now : Int) (p : Post) : c ∉ (get_age_str now p).data := by
  unfold get_age_str intRepr
  intro hmem
  simp only [] at hmem
  split at hmem
  · split at hmem
    · simp [natRepr, String.data_append] at hmem
      rcases hmem with h | h | h
      · exact h1 h
      · exact natDigits_avoid hdig _ h
      · exact h2 h
    · simp [natRepr, String.data_append] at hmem
      rcases hmem with h | h
      · exact natDigits_avoid hdig _ h
      · exact h2 h
  · split at hmem
    · simp [natRepr, String.data_append] at hmem
      rcases hmem with h | h
      · exact natDigits_avoid hdig _ h
      · exact h3 h
    · split at hmem
      · simp [natRepr, String.data_append] at hmem
        rcases hmem with h | h
        · exact natDigits_avoid hdig _ h
        · exact h4 h
      · simp [natRepr, String.data_append] at hmem
        rcases hmem with h | h
        · exact natDigits_avoid hdig _ h
        · exact h5 h

theorem splitAtMarker_eq (m a : List Char) (c : Char) (hm : m.head? = some c)
    (ha : c ∉ a) (b : List Char) :
    splitAtMarker m (a ++ (m ++ b)) = some (a, b) := by
  obtain ⟨m', rfl⟩ : ∃ m', m = c :: m' := by
    cases m with
    | nil => simp at hm
    | cons x m' =>
      simp at hm
      exact ⟨m', by rw [hm]⟩
  clear hm
  induction a with
  | nil =>
    simp only [List.nil_append, List.cons_append]
    rw [splitAtMarker]
    rw [if_pos ⟨b, by simp⟩]
    simp [List.drop_left]
  | cons x a ih =>
    have hxc : c ≠ x := fun h => ha (h ▸ List.mem_cons_self x a)
    have ha' : c ∉ a := fun h => ha (List.mem_cons_of_mem x h)
    simp only [List.cons_append]
    rw [splitAtMarker]
    rw [if_neg (fun hp : c :: m' <+: x :: (a ++ c :: (m' ++ b)) =>
      hxc (List.cons_prefix_cons.mp hp).1)]
    simp only [List.cons_append] at ih
    rw [ih ha']

theorem postBlock_decomp (now : Int) (p : Post) (r : String) (rest : List Char) :
    (postBlock now p r).data ++ rest =
      mBlockStart ++ (p.subreddit.data ++ (mSub ++ (p.permalink.data ++ (mPerma ++
        ((p.title.data ++ [' ']) ++ (mTitle ++ ((get_age_str now p).data ++
          (mAge ++ (r.data ++ (mReason ++ rest)))))))))) := by
  have hD : postBlockD.data = ' ' :: mTitle := rfl
  simp [postBlock, get_full_url, mBlockStart, mSub, mPerma, mAge, mReason, hD,
    String.data_append, List.append_assoc]

theorem parseBlocksAux_foot (fuel : Nat) : parseBlocksAux fuel htmlFoot.data = [] := by
  cases fuel with
  | zero => rfl
  | succ f =>
    simp only [parseBlocksAux]
    rw [if_neg (by decide)]

theorem parseBlocksAux_cons (now : Int) (p : Post) (r : String) (rest : List Char)
    (f : Nat) (h1 : '<' ∉ p.subreddit.data) (h2 : '"' ∉ p.permalink.data)
    (h3 : '<' ∉ p.title.data) (h4 : '<' ∉ r.data) :
    parseBlocksAux (f + 1) ((postBlock now p r).data ++ rest) =
      (p.permalink.data, p.title.data) :: parseBlocksAux f rest := by
  have h3' : '<' ∉ p.title.data ++ [' '] := by
    simp [List.mem_append, h3]
  have hage : ')' ∉ (get_age_str now p).data :=
    age_str_avoid (by decide) (by decide) (by decide) (by decide) (by decide)
      (by decide) now p
  rw [postBlock_decomp]
  simp only [parseBlocksAux]
  rw [if_pos ⟨_, rfl⟩]
  rw [List.drop_left]
  simp only [splitAtMarker_eq mSub p.subreddit.data '<' rfl h1,
    splitAtMarker_eq mPerma p.permalink.data '"' rfl h2,
    splitAtMarker_eq mTitle (p.title.data ++ [' ']) '<' rfl h3',
    splitAtMarker_eq mAge (get_age_str now p).data ')' rfl hage,
    splitAtMarker_eq mReason r.data '<' rfl h4]
  simp

theorem blocksHtml_length_le (now : Int) (l : List (Post × String)) :
    l.length ≤ (blocksHtml now l).data.length := by
  induction l with
  | nil => simp [blocksHtml]
  | cons pr rest ih =>
    have h0 : 0 < postBlockA.data.length := by decide
    have hblock : postBlockA.data.length ≤ (postBlock now pr.1 pr.2).data.length := by
      simp [postBlock, String.data_append]
    simp only [blocksHtml, String.data_append, List.length_append, List.length_cons]
    omega

theorem parseBlocksAux_blocks (now : Int) (l : List (Post × String)) :
    ∀ fuel : Nat, l.length ≤ fuel → (∀ pr ∈ l, goodFields pr) →
      parseBlocksAux fuel ((blocksHtml now l).data ++ htmlFoot.data) =
        l.map fun pr => (pr.1.permalink.data, pr.1.title.data) := by
  induction l with
  | nil =>
    intro fuel _ _
    have hnil : (blocksHtml now []).data = ([] : List Char) := rfl
    rw [hnil, List.nil_append, parseBlocksAux_foot]
    rfl
  | cons pr rest ih =>
    intro fuel hf hg
    obtain ⟨f, rfl⟩ : ∃ f, fuel = f + 1 := by
      refine ⟨fuel - 1, ?_⟩
      simp at hf
      omega
    obtain ⟨h1, h2, h3, h4⟩ := hg pr (by simp)
    have hstep : (blocksHtml now (pr :: rest)).data ++ htmlFoot.data =
        (postBlock now pr.1 pr.2).data ++
          ((blocksHtml now rest).data ++ htmlFoot.data) := by
      simp [blocksHtml, String.data_append, List.append_assoc]
    rw [hstep, parseBlocksAux_cons now pr.1 pr.2 _ f h1 h2 h3 h4]
    rw [ih f (by simp at hf; omega) (fun q hq => hg q (by simp [hq]))]
    rfl

theorem splitAtMarker_self (m : List Char) (c : Char) (hm : m.head? = some c)
    (b : List Char) : splitAtMarker m (m ++ b) = some ([], b) := by
  have h := splitAtMarker_eq m [] c hm (by simp) b
  simpa using h

theorem build_html_data (ts : String) (now : Int) (l : List (Post × String)) :
    (build_html_report ts now l).data =
      htmlHead.data ++ (ts.data ++ (htmlMid2.data ++ (natDigits l.length ++
        (htmlMid3.data ++ ((blocksHtml now l).data ++ htmlFoot.data))))) := by
  have hmk : ∀ x : List Char, (String.mk x).data = x := fun _ => rfl
  simp [build_html_report, natRepr, hmk, String.data_append, List.append_assoc]

theorem blocksHtml_congr (now1 now2 : Int) :
    ∀ l : List (Post × String),
      (∀ pr ∈ l, get_age_str now1 pr.1 = get_age_str now2 pr.1) →
      blocksHtml now1 l = blocksHtml now2 l := by
  intro l
  induction l with
  | nil => intro _; rfl
  | cons pr rest ih =>
    intro h
    have hblock : postBlock now1 pr.1 pr.2 = postBlock now2 pr.1 pr.2 := by
      unfold postBlock
      rw [h pr (by simp)]
    simp only [blocksHtml]
    rw [hblock, ih (fun q hq => h q (by simp [hq]))]

theorem isInfix_append_left (s : List Char) {x t : List Char} (h : x <:+: t) :
    x <:+: s ++ t := by
  obtain ⟨u, v, huv⟩ := h
  exact ⟨s ++ u, v, by rw [← huv]; simp [List.append_assoc]⟩

theorem postBlock_infix_blocks (now : Int) (p : Post) (r : String) :
    ∀ l : List (Post × String), (p, r) ∈ l →
      (postBlock now p r).data <:+: (blocksHtml now l).data := by
  intro l
  induction l with
  | nil => intro h; simp at h
  | cons pr rest ih =>
    intro h
    rcases List.mem_cons.mp h with heq | hm
    · refine ⟨[], (blocksHtml now rest).data, ?_⟩
      simp [blocksHtml, ← heq, String.data_append]
    · have hx := ih hm
      have := isInfix_append_left (postBlock now pr.1 pr.2).data hx
      simpa [blocksHtml, String.data_append] using this

theorem title_infix_postBlock (now : Int) (p : Post) (r : String) :
    p.title.data <:+: (postBlock now p r).data :=
  ⟨(postBlockA ++ p.subreddit ++ postBlockB ++ get_full_url p ++ postBlockC).data,
    (postBlockD ++ get_age_str now p ++ postBlockE ++ r ++ postBlockF).data,
    by simp [postBlock, String.data_append, List.append_assoc]⟩

theorem reason_infix_postBlock (now : Int) (p : Post) (r : String) :
    r.data <:+: (postBlock now p r).data :=
  ⟨(postBlockA ++ p.subreddit ++ postBlockB ++ get_full_url p ++ postBlockC ++
      p.title ++ postBlockD ++ get_age_str now p ++ postBlockE).data,
    postBlockF.data,
    by simp [postBlock, String.data_append, List.append_assoc]⟩

theorem subreddit_infix_postBlock (now : Int) (p : Post) (r : String) :
    p.subreddit.data <:+: (postBlock now p r).data :=
  ⟨postBlockA.data,
    (postBlockB ++ get_full_url p ++ postBlockC ++ p.title ++ postBlockD ++
      get_age_str now p ++ postBlockE ++ r ++ postBlockF).data,
    by simp [postBlock, String.data_append, List.append_assoc]⟩

theorem infix_build (ts : String) (now : Int) (l : List (Post × String))
    (x : List Char) (h : x <:+: (blocksHtml now l).data) :
    x <:+: (build_html_report ts now l).data := by
  obtain ⟨u, v, huv⟩ := h
  refine ⟨(htmlHead ++ ts ++ htmlMid2 ++ natRepr l.length ++ htmlMid3).data ++ u,
    v ++ htmlFoot.data, ?_⟩
  have hblocks : (blocksHtml now l).data = u ++ (x ++ v) := by
    rw [← huv]; simp [List.append_assoc]
  simp [build_html_report, String.data_append, List.append_assoc, hblocks]

/- ------------------------------------------------------------------ -/
/- Claim C7                                                            -/
/- ------------------------------------------------------------------ -/

set_option maxRecDepth 20000 in
/-- C7 counterexample: the renderer is not a function of the input results
alone - it reads the clock.  Two invocations on the same (empty) input with
different timestamp readings produce different documents. -/
theorem C7_counterexample :
    build_html_report "2025-01-01 00:00:00" 0 [] ≠
      build_html_report "" 0 [] := by
  intro h
  have h1 : (build_html_report "2025-01-01 00:00:00" 0 []).data.length =
      (build_html_report "" 0 []).data.length := by rw [h]
  rw [build_html_data, build_html_data] at h1
  simp only [List.length_append] at h1
  have e1 : ("2025-01-01 00:00:00" : String).data.length = 19 := rfl
  have e2 : ("" : String).data.length = 0 := rfl
  rw [e1, e2] at h1
  omega

/-- C7 (amended): the renderer performs no side effects and is deterministic
given the clock: the document depends only on the input results, the
generated-at timestamp and the ages computed from the current time, so two
invocations whose timestamp strings agree and whose age strings agree on
every input post produce the same document. -/
theorem C7_deterministic_given_clock :
    ∀ (ts1 ts2 : String) (now1 now2 : Int) (results : List (Post × String)),
      ts1 = ts2 →
      (∀ pr ∈ results, get_age_str now1 pr.1 = get_age_str now2 pr.1) →
      build_html_report ts1 now1 results = build_html_report ts2 now2 results := by
  intro ts1 ts2 now1 now2 results hts hage
  subst hts
  unfold build_html_report
  rw [blocksHtml_congr now1 now2 results hage]

set_option maxRecDepth 4000 in
/-- C7 witness: two renders at clock readings 60 and 61 of a post created at
time 0 agree (both ages render as `1m`). -/
theorem C7_witness :
    build_html_report "2025-04-01 12:00:00" 60 [(postA, "match")] =
      build_html_report "2025-04-01 12:00:00" 61 [(postA, "match")] :=
  C7_deterministic_given_clock "2025-04-01 12:00:00" "2025-04-01 12:00:00"
    60 61 [(postA, "match")] rfl (by decide)

/- ------------------------------------------------------------------ -/
/- Claim C8                                                            -/
/- ------------------------------------------------------------------ -/

set_option maxRecDepth 4000 in
/-- On the injected post the title-terminating marker first occurs inside the
title itself, so the block parse recovers the empty title. -/
theorem parseBlocks_inj :
    ∀ fuel : Nat, 1 ≤ fuel →
      parseBlocksAux fuel ((blocksHtml 0 [(postInj, "ok")]).data ++ htmlFoot.data) =
        [("/r/t/1".data, ([] : List Char))] := by
  intro fuel hf
  obtain ⟨f, rfl⟩ : ∃ f, fuel = f + 1 := ⟨fuel - 1, by omega⟩
  have hstep : (blocksHtml 0 [(postInj, "ok")]).data ++ htmlFoot.data =
      mBlockStart ++ ("t".data ++ (mSub ++ ("/r/t/1".data ++ (mPerma ++
        ("x".data ++ (mTitle ++ (("y".data ++ ([' '] ++ (mTitle ++
          (get_age_str 0 postInj).data))) ++ (mAge ++
            ("ok".data ++ (mReason ++ htmlFoot.data)))))))))) := by
    decide
  rw [hstep]
  simp only [parseBlocksAux]
  rw [if_pos ⟨_, rfl⟩]
  rw [List.drop_left]
  simp only [splitAtMarker_eq mSub "t".data '<' rfl (by decide),
    splitAtMarker_eq mPerma "/r/t/1".data '"' rfl (by decide),
    splitAtMarker_eq mTitle "x".data '<' rfl (by decide),
    splitAtMarker_eq mAge
      ("y".data ++ ([' '] ++ (mTitle ++ (get_age_str 0 postInj).data))) ')' rfl
      (by decide),
    splitAtMarker_eq mReason "ok".data '<' rfl (by decide)]
  rw [parseBlocksAux_foot]
  rfl

set_option maxRecDepth 4000 in
/-- C8 counterexample: the renderer escapes nothing, so a title containing
the age-span markup collides with the report's own delimiters and
re-parsing the rendered document does not recover the title. -/
theorem C8_counterexample :
    parseReport (build_html_report "2025-01-01 00:00:00" 0 [(postInj, "ok")]) ≠
      [(postInj.permalink, postInj.title)] := by
  have hts : '<' ∉ ("2025-01-01 00:00:00" : String).data := by decide
  have hdig : ' ' ∉ natDigits (List.length [((postInj : Post), ("ok" : String))]) :=
    natDigits_avoid (by decide) _
  have hparse : parseReport (build_html_report "2025-01-01 00:00:00" 0
      [(postInj, "ok")]) = [("/r/t/1", "")] := by
    unfold parseReport
    rw [build_html_data]
    simp only [splitAtMarker_self htmlHead.data '\n' rfl,
      splitAtMarker_eq htmlMid2.data ("2025-01-01 00:00:00" : String).data '<'
        rfl hts,
      splitAtMarker_eq htmlMid3.data
        (natDigits (List.length [((postInj : Post), ("ok" : String))])) ' ' rfl
        hdig]
    rw [parseBlocks_inj _ (by
      simp only [List.length_append]
      have h0 : 0 < htmlHead.data.length := List.length_pos.mpr (by decide)
      omega)]
    rfl
  rw [hparse]
  decide

/-- C8 (amended): for inputs whose interpolated strings avoid the report's
delimiter characters (no `<` in the timestamp, the subreddit, the title or
the reason, and no `"` in the permalink), rendering and then re-parsing the
per-post blocks recovers exactly the permalinks and titles of the input
posts, in input order. -/
theorem C8_roundtrip :
    ∀ (ts : String) (now : Int) (results : List (Post × String)),
      '<' ∉ ts.data → (∀ pr ∈ results, goodFields pr) →
      parseReport (build_html_report ts now results) =
        results.map fun pr => (pr.1.permalink, pr.1.title) := by
  intro ts now results hts hg
  have hfuel : results.length ≤ (build_html_report ts now results).data.length := by
    have h1 := blocksHtml_length_le now results
    rw [build_html_data]
    have h2 : (blocksHtml now results).data.length ≤
        (htmlHead.data ++ (ts.data ++ (htmlMid2.data ++ (natDigits results.length ++
          (htmlMid3.data ++ ((blocksHtml now results).data ++
            htmlFoot.data)))))).length := by
      simp only [List.length_append]
      omega
    omega
  have hdig : ' ' ∉ natDigits results.length := natDigits_avoid (by decide) _
  unfold parseReport
  rw [build_html_data ts now results] at hfuel ⊢
  simp only [splitAtMarker_self htmlHead.data '\n' rfl,
    splitAtMarker_eq htmlMid2.data ts.data '<' rfl hts,
    splitAtMarker_eq htmlMid3.data (natDigits results.length) ' ' rfl hdig]
  rw [parseBlocksAux_blocks now results _ hfuel hg]
  rw [List.map_map]
  rfl

set_option maxRecDepth 4000 in
/-- C8 witness: on two well-formed posts the round trip recovers both
(permalink, title) pairs in order. -/
theorem C8_witness :
    parseReport (build_html_report "2025-01-01 00:00:00" 90
        [(postA, "good"), (postB, "also")]) =
      [(postA, "good"), (postB, "also")].map
        (fun pr => (pr.1.permalink, pr.1.title)) :=
  C8_roundtrip "2025-01-01 00:00:00" 90 [(postA, "good"), (postB, "also")]
    (by decide) (by decide)

/- ------------------------------------------------------------------ -/
/- Claim C10                                                           -/
/- ------------------------------------------------------------------ -/

/-- C10: the renderer interpolates each result's title, subreddit and reason
verbatim, with no escaping: each appears character-for-character as a
contiguous substring of the rendered document, whatever characters (including
HTML markup) it contains. -/
theorem C10_verbatim_interpolation :
    ∀ (ts : String) (now : Int) (results : List (Post × String)) (p : Post)
      (r : String), (p, r) ∈ results →
      p.title.data <:+: (build_html_report ts now results).data ∧
      r.data <:+: (build_html_report ts now results).data ∧
      p.subreddit.data <:+: (build_html_report ts now results).data := by
  intro ts now results p r hmem
  have hb := postBlock_infix_blocks now p r results hmem
  exact ⟨infix_build ts now results _ ((title_infix_postBlock now p r).trans hb),
    infix_build ts now results _ ((reason_infix_postBlock now p r).trans hb),
    infix_build ts now results _ ((subreddit_infix_postBlock now p r).trans hb)⟩

/-- C10 witness: a title and reason carrying HTML markup appear verbatim in
the rendered document. -/
theorem C10_witness :
    postMarkup.title.data <:+:
      (build_html_report "t" 0 [(postMarkup, "<i>why</i>")]).data ∧
    "<i>why</i>".data <:+:
      (build_html_report "t" 0 [(postMarkup, "<i>why</i>")]).data ∧
    postMarkup.subreddit.data <:+:
      (build_html_report "t" 0 [(postMarkup, "<i>why</i>")]).data :=
  C10_verbatim_interpolation "t" 0 [(postMarkup, "<i>why</i>")] postMarkup
    "<i>why</i>" (by simp)
